import Mathlib

/-!
Verification of the ServiceNow MCP SSE server (`src/servicenow_mcp/server_sse.py`).

The file at `src/servicenow_mcp/server_sse.py` is a thin wrapper: the SSE
transport bridge itself (session registry, channels, stream and intake
endpoints) is provided by `mcp.server.sse.SseServerTransport`, whose code is
not part of the surveyed sources; `handle_sse` and the `/messages/` mount are
its callers.  Those bridge components are therefore modelled from the spec
(sections 2 to 6), while `handle_root`, `handle_health` and
`create_servicenow_mcp` are embedded directly from the Python source.
-/

namespace ServiceNowSSE

/-- Modelled from the spec: a protocol message is a raw serialized payload
(one POST body, or one SSE data event); the bridge never inspects it. -/
abbrev Message := String

/-- Modelled from the spec: lifecycle states of a session
(`active`, `closing`, `closed`). -/
inductive SessionState where
  | active
  | closing
  | closed
deriving DecidableEq, Repr

/-- Modelled from the spec: a Session holds an opaque identifier (modelled as
a natural number handed out by the registry allocator), its two exclusively
owned channels (each identified by a channel id and carrying a FIFO queue of
messages), the bounded capacity of the inbound channel, and its lifecycle
state.  Channel ids are allocated together with the session identifier:
inbound channel `2 * sid`, outbound channel `2 * sid + 1`. -/
structure Session where
  sid : Nat
  inboundChan : Nat
  outboundChan : Nat
  inbound : List Message
  inboundCap : Nat
  outbound : List Message
  state : SessionState
deriving DecidableEq, Repr

/-- Modelled from the spec: a freshly registered session with empty channels
in the `active` state. -/
def newSession (sid cap : Nat) : Session :=
  { sid := sid
    inboundChan := 2 * sid
    outboundChan := 2 * sid + 1
    inbound := []
    inboundCap := cap
    outbound := []
    state := SessionState.active }

/-- Modelled from the spec: the Session Registry, process-wide state mapping
session identifiers to sessions, together with the allocator used to generate
fresh identifiers. -/
structure Registry where
  entries : List (Nat × Session)
  nextId : Nat
deriving DecidableEq, Repr

/-- Modelled from the spec: the empty registry at process start. -/
def Registry.init : Registry := { entries := [], nextId := 0 }

/-- Modelled from the spec: `register(session) -> identifier`; generates a
fresh identifier, creates the channel pair atomically with the session, and
inserts the entry. -/
def Registry.register (r : Registry) (cap : Nat) : Registry × Nat :=
  ({ entries := (r.nextId, newSession r.nextId cap) :: r.entries
     nextId := r.nextId + 1 }, r.nextId)

/-- Modelled from the spec: `lookup(identifier) -> session-or-absent`. -/
def Registry.lookup (r : Registry) (sid : Nat) : Option Session :=
  (r.entries.find? (fun p => p.1 == sid)).map (fun p => p.2)

/-- Modelled from the spec: `remove(identifier)` deletes the entry for the
given identifier, if any. -/
def Registry.remove (r : Registry) (sid : Nat) : Registry :=
  { entries := r.entries.filter (fun p => p.1 != sid), nextId := r.nextId }

/-- Modelled from the spec: replace the session stored under `sid` (used by
intake to enqueue onto the inbound channel of that session). -/
def Registry.updateSession (r : Registry) (sid : Nat) (s : Session) : Registry :=
  { entries := r.entries.map (fun p => if p.1 == sid then (p.1, s) else p)
    nextId := r.nextId }

/-- Registry invariant: every stored session carries the key of its entry as
its identifier, its channel ids are the ones allocated with that key, every
key is below the allocator, and keys are pairwise distinct. -/
def RegInv (r : Registry) : Prop :=
  (∀ p ∈ r.entries,
      p.2.sid = p.1 ∧ p.2.inboundChan = 2 * p.1 ∧
      p.2.outboundChan = 2 * p.1 + 1 ∧ p.1 < r.nextId) ∧
  (r.entries.map Prod.fst).Nodup

/-- Exclusive channel ownership: distinct registry entries never share a
channel, in either direction. -/
def ChansExclusive (r : Registry) : Prop :=
  r.entries.Pairwise (fun a b =>
    a.2.inboundChan ≠ b.2.inboundChan ∧ a.2.outboundChan ≠ b.2.outboundChan ∧
    a.2.inboundChan ≠ b.2.outboundChan ∧ a.2.outboundChan ≠ b.2.inboundChan)

/-- Modelled from the spec: the registry operations invoked concurrently from
HTTP request handlers; a concurrent execution is an arbitrary interleaving,
i.e. an arbitrary finite sequence of these operations. -/
inductive RegOp where
  | register (cap : Nat)
  | remove (sid : Nat)
  | lookup (sid : Nat)

/-- One registry operation as a step on the registry state (`lookup` reads
but does not change the state). -/
def regStep (r : Registry) : RegOp → Registry
  | RegOp.register cap => (r.register cap).1
  | RegOp.remove sid => r.remove sid
  | RegOp.lookup _ => r

/-- Run a sequence of registry operations from the initial registry. -/
def runReg (ops : List RegOp) : Registry :=
  ops.foldl regStep Registry.init

/-- Modelled from the spec: the two operations that act on the outbound
channel of one session while the client stays connected: the Session Handler
writes a message (`send`), and the SSE loop relays the next queued message to
the client as one SSE data event (`relay`; a no-op while the queue is empty,
where the loop blocks). -/
inductive BridgeOp where
  | send (m : Message)
  | relay

/-- Modelled from the spec: the observable state of the outbound direction of
one session: the FIFO queue of the outbound channel, the history of messages
the Session Handler has written, and the payloads delivered to the client so
far as SSE data events. -/
structure BridgeState where
  queue : List Message
  sentHist : List Message
  delivered : List Message
deriving DecidableEq, Repr

/-- Modelled from the spec: one step of the outbound direction. `send`
enqueues at the tail; `relay` dequeues at the head and appends the payload to
the delivered stream, flushing immediately. -/
def bridgeStep (s : BridgeState) : BridgeOp → BridgeState
  | BridgeOp.send m =>
    { queue := s.queue ++ [m], sentHist := s.sentHist ++ [m], delivered := s.delivered }
  | BridgeOp.relay =>
    match s.queue with
    | [] => s
    | m :: rest => { queue := rest, sentHist := s.sentHist, delivered := s.delivered ++ [m] }

/-- Run an arbitrary interleaving of sends and relays from the state of a
freshly connected session. -/
def runBridge (ops : List BridgeOp) : BridgeState :=
  ops.foldl bridgeStep { queue := [], sentHist := [], delivered := [] }

/-- Modelled from the spec: an event on the SSE stream: the initial
`endpoint` event carrying the intake URL, or a `data` event carrying one
message payload. -/
inductive SSEvent where
  | endpoint (url : String)
  | data (payload : Message)
deriving DecidableEq, Repr

/-- Modelled from the spec: the intake URL for a session, with the session
identifier embedded as a query parameter under the `/messages/` mount of
`create_starlette_app`. -/
def postUrl (sid : Nat) : String :=
  "/messages/?session_id=" ++ toString sid

/-- Modelled from the spec: `handle_sse` in the source delegates to
`sse.connect_sse`, whose transport code is outside the surveyed sources. On a
GET request it registers a fresh session and produces the event stream: one
initial endpoint event carrying the intake URL for the fresh identifier,
followed by one data event per outbound message relayed while connected. -/
def handle_sse (r : Registry) (cap : Nat) (outMsgs : List Message) :
    Registry × List SSEvent :=
  ((r.register cap).1,
    SSEvent.endpoint (postUrl (r.register cap).2) :: outMsgs.map SSEvent.data)

/-- Modelled from the spec: the Message Intake Endpoint mounted at
`/messages/`. It looks up the session; absent or non-`active` sessions get a
404 with no state change; a missing (malformed) body gets a 400; a full
inbound channel gets a 503 backpressure rejection; otherwise the message is
enqueued on the inbound channel of the session and a 202 is returned without
waiting for the Session Handler. -/
def handle_post_message (r : Registry) (sid : Nat) (body : Option Message) :
    Registry × Nat :=
  match r.lookup sid with
  | none => (r, 404)
  | some s =>
    match s.state with
    | SessionState.closing => (r, 404)
    | SessionState.closed => (r, 404)
    | SessionState.active =>
      match body with
      | none => (r, 400)
      | some m =>
        if s.inbound.length < s.inboundCap then
          (r.updateSession sid { s with inbound := s.inbound ++ [m] }, 202)
        else
          (r, 503)

/-- Modelled from the spec: a sequence of POSTs to the same session, in
arrival order; returns the final registry and the list of response statuses. -/
def postSeq (r : Registry) (sid : Nat) (msgs : List Message) : Registry × List Nat :=
  match msgs with
  | [] => (r, [])
  | m :: rest =>
    let first := handle_post_message r sid (some m)
    let after := postSeq first.1 sid rest
    (after.1, first.2 :: after.2)

/-- Modelled from the spec: what a blocking receive on the Session Handler
side returns: the next inbound message, or a cancellation signal when the
session is closing. -/
inductive RecvResult where
  | msg (m : Message)
  | cancelled
deriving DecidableEq, Repr

/-- Modelled from the spec: the outcome of tearing a session down on client
disconnect: the registry after cleanup, and the value an outstanding blocked
receive resolves to. -/
structure TeardownResult where
  registry : Registry
  handlerReceive : RecvResult

/-- Modelled from the spec: when the SSE client disconnects, the session is
marked `closing`, any outstanding blocking receive is released with a
cancellation signal, and the registry entry is deleted; the teardown step is
modelled atomically (the bounded-time promptness of the spec collapses to
this single step). -/
def clientDisconnect (r : Registry) (sid : Nat) : TeardownResult :=
  { registry := r.remove sid, handlerReceive := RecvResult.cancelled }

/-- Outcome of opening and reading `static/index.html` in `handle_root`: the
file system is outside the program, so the read is abstracted as content,
FileNotFoundError, or any other exception (carrying `str(e)`). -/
inductive FileReadResult where
  | ok (content : String)
  | fileNotFound
  | otherError (e : String)
deriving DecidableEq, Repr

/-- An HTML response as produced by `handle_root`: content and status code. -/
structure HTMLResponse where
  content : String
  status_code : Nat
deriving DecidableEq, Repr

/-- The fallback HTML page served by `handle_root` when `static/index.html`
is not found (source lines 56 to 80). -/
def fallback_html : String :=
"
            <!DOCTYPE html>
            <html>
            <head>
                <title>ServiceNow MCP Server</title>
                <style>
                    body \x7b font-family: Arial, sans-serif; margin: 40px; background: #f5f5f5; \x7d
                    .container \x7b max-width: 600px; margin: 0 auto; background: white; padding: 30px; border-radius: 8px; \x7d
                    h1 \x7b color: #e74c3c; \x7d
                </style>
            </head>
            <body>
                <div class=\"container\">
                    <h1>⚠️ ServiceNow MCP Server</h1>
                    <p>API documentation template not found. Server is running but documentation is unavailable.</p>
                    <p>Available endpoints:</p>
                    <ul>
                        <li><strong>GET /health</strong> - Health check</li>
                        <li><strong>GET /sse</strong> - MCP SSE endpoint</li>
                        <li><strong>POST /messages/</strong> - MCP messages</li>
                    </ul>
                </div>
            </body>
            </html>
            "

/-- The error HTML page served by `handle_root` on an exception other than
FileNotFoundError (source lines 85 to 104), with `str(e)` interpolated. -/
def error_html (e : String) : String :=
"
            <!DOCTYPE html>
            <html>
            <head>
                <title>ServiceNow MCP Server - Error</title>
                <style>
                    body \x7b font-family: Arial, sans-serif; margin: 40px; background: #f5f5f5; \x7d
                    .container \x7b max-width: 600px; margin: 0 auto; background: white; padding: 30px; border-radius: 8px; \x7d
                    h1 \x7b color: #e74c3c; \x7d
                </style>
            </head>
            <body>
                <div class=\"container\">
                    <h1>❌ ServiceNow MCP Server - Error</h1>
                    <p>Error loading documentation: " ++ e ++ "</p>
                    <p>Server is running but documentation display failed.</p>
                </div>
            </body>
            </html>
            "

/-- Shallow embedding of `handle_root` (source lines 41 to 105): a successful
read of the documentation file is returned with status 200; a
FileNotFoundError falls back to a static page with status 200; any other
exception yields the error page with status 500. -/
def handle_root (fileRead : FileReadResult) : HTMLResponse :=
  match fileRead with
  | FileReadResult.ok content => { content := content, status_code := 200 }
  | FileReadResult.fileNotFound => { content := fallback_html, status_code := 200 }
  | FileReadResult.otherError e => { content := error_html e, status_code := 500 }

/-- The process environment as seen through `os.getenv`: a partial map from
variable names to values. -/
def getenv (env : String → Option String) (key dflt : String) : String :=
  (env key).getD dflt

/-- The `configuration` object of the health payload built by
`handle_health`. -/
structure HealthConfig where
  tool_package : String
  debug_mode : Bool
  ssl_verify : Bool
  log_level : String
  auth_type : String
  instance_configured : String
deriving DecidableEq, Repr

/-- The JSON body built by `handle_health` (source lines 119 to 141); the
static `endpoints` block is omitted as it carries no environment-dependent
data, and the `mcp` block is flattened into the last two fields. -/
structure HealthData where
  status : String
  service : String
  version : String
  configuration : HealthConfig
  protocol_version : String
  server_ready : Bool
deriving DecidableEq, Repr

/-- Shallow embedding of `handle_health` (source lines 107 to 151): reads the
environment with defaults and returns the health payload with status 200. The
`except` branch of the source is unreachable in this embedding because every
operation in the `try` block is total. -/
def handle_health (env : String → Option String) : HealthData × Nat :=
  let tool_package := getenv env "MCP_TOOL_PACKAGE" "full"
  let debug_mode := (getenv env "DEBUG_MODE" "false").toLower == "true"
  let ssl_verify := (getenv env "SSL_VERIFY" "true").toLower == "true"
  let log_level := getenv env "LOG_LEVEL" "INFO"
  let auth_type := getenv env "SERVICENOW_AUTH_TYPE" "basic"
  let instance_url := getenv env "SERVICENOW_INSTANCE_URL" "not-configured"
  ({ status := "healthy"
     service := "ServiceNow MCP Server"
     version := "1.0.0"
     configuration :=
       { tool_package := tool_package
         debug_mode := debug_mode
         ssl_verify := ssl_verify
         log_level := log_level
         auth_type := auth_type
         instance_configured :=
           if instance_url ≠ "not-configured" then "configured" else "not-configured" }
     protocol_version := "2024-11-05"
     server_ready := true }, 200)

/-- Authentication types of `servicenow_mcp.utils.config` (that module is
outside the surveyed sources; constructors follow its use in the source and
the ServiceNow MCP configuration surface). -/
inductive AuthType where
  | BASIC
  | OAUTH
  | API_KEY
deriving DecidableEq, Repr

/-- Basic-authentication credentials, as constructed in
`create_servicenow_mcp`. -/
structure BasicAuthConfig where
  username : String
  password : String
deriving DecidableEq, Repr

/-- Authentication configuration: a type tag plus the basic credentials when
the type is BASIC. -/
structure AuthConfig where
  type : AuthType
  basic : Option BasicAuthConfig
deriving DecidableEq, Repr

/-- Server configuration: the instance URL and the authentication
configuration. -/
structure ServerConfig where
  instance_url : String
  auth : AuthConfig
deriving DecidableEq, Repr

/-- The `ServiceNowSSEMCP` server object, which stores the configuration it
was constructed with (via `super().__init__(config)`). -/
structure ServiceNowSSEMCP where
  config : ServerConfig
deriving DecidableEq, Repr

/-- Shallow embedding of `create_servicenow_mcp` (source lines 196 to 236):
builds a basic-authentication configuration from the given credentials and
returns a `ServiceNowSSEMCP` configured with it. -/
def create_servicenow_mcp (instance_url username password : String) : ServiceNowSSEMCP :=
  let auth_config : AuthConfig :=
    { type := AuthType.BASIC
      basic := some { username := username, password := password } }
  let config : ServerConfig := { instance_url := instance_url, auth := auth_config }
  { config := config }

theorem regInv_init : RegInv Registry.init := by
  constructor
  · intro p hp; simp [Registry.init] at hp
  · simp [Registry.init]

theorem regInv_register (r : Registry) (cap : Nat) (h : RegInv r) :
    RegInv (r.register cap).1 := by
  obtain ⟨h1, h2⟩ := h
  constructor
  · intro p hp
    simp only [Registry.register, List.mem_cons] at hp
    rcases hp with hp | hp
    · subst hp; simp [newSession, Registry.register]
    · obtain ⟨e1, e2, e3, e4⟩ := h1 p hp
      exact ⟨e1, e2, e3, Nat.lt_succ_of_lt e4⟩
  · simp only [Registry.register, List.map_cons, List.nodup_cons]
    refine ⟨?_, h2⟩
    intro hmem
    simp only [List.mem_map] at hmem
    obtain ⟨p, hp, hkey⟩ := hmem
    have := (h1 p hp).2.2.2
    omega

theorem regInv_remove (r : Registry) (sid : Nat) (h : RegInv r) :
    RegInv (r.remove sid) := by
  obtain ⟨h1, h2⟩ := h
  constructor
  · intro p hp
    simp only [Registry.remove] at hp
    exact h1 p (List.mem_of_mem_filter hp)
  · simp only [Registry.remove]
    exact h2.sublist (List.Sublist.map Prod.fst (List.filter_sublist _))

theorem regInv_step (r : Registry) (op : RegOp) (h : RegInv r) :
    RegInv (regStep r op) := by
  cases op with
  | register cap => exact regInv_register r cap h
  | remove sid => exact regInv_remove r sid h
  | lookup _ => exact h

theorem regInv_runReg (ops : List RegOp) : RegInv (runReg ops) := by
  have key : ∀ (l : List RegOp) (r : Registry), RegInv r → RegInv (l.foldl regStep r) := by
    intro l
    induction l with
    | nil => intro r hr; exact hr
    | cons op rest ih => intro r hr; exact ih (regStep r op) (regInv_step r op hr)
  exact key ops Registry.init regInv_init

theorem chansExclusive_of_regInv (r : Registry) (h : RegInv r) : ChansExclusive r := by
  obtain ⟨h1, h2⟩ := h
  have hpair : r.entries.Pairwise (fun a b => a.1 ≠ b.1) := List.pairwise_map.mp h2
  unfold ChansExclusive
  refine hpair.imp_of_mem ?_
  intro a b ha hb hne
  obtain ⟨-, ea2, ea3, -⟩ := h1 a ha
  obtain ⟨-, eb2, eb3, -⟩ := h1 b hb
  refine ⟨?_, ?_, ?_, ?_⟩ <;> simp only [ea2, ea3, eb2, eb3] <;> omega

/-- The delivered stream followed by the still-queued messages is exactly the
send history; preserved by every bridge step. -/
def BridgeAccounted (s : BridgeState) : Prop :=
  s.delivered ++ s.queue = s.sentHist

theorem bridgeAccounted_step (s : BridgeState) (op : BridgeOp)
    (h : BridgeAccounted s) : BridgeAccounted (bridgeStep s op) := by
  cases op with
  | send m =>
    unfold BridgeAccounted bridgeStep at *
    rw [← List.append_assoc, h]
  | relay =>
    unfold BridgeAccounted bridgeStep at *
    cases hq : s.queue with
    | nil => simpa [hq] using h
    | cons m rest =>
      simp only
      rw [List.append_assoc]
      simpa [hq] using h

theorem bridgeAccounted_foldl (ops : List BridgeOp) :
    ∀ s : BridgeState, BridgeAccounted s → BridgeAccounted (ops.foldl bridgeStep s) := by
  induction ops with
  | nil => intro s hs; exact hs
  | cons op rest ih => intro s hs; exact ih (bridgeStep s op) (bridgeAccounted_step s op hs)

theorem bridge_foldl_sends (msgs : List Message) :
    ∀ s : BridgeState, (msgs.map BridgeOp.send).foldl bridgeStep s =
      { queue := s.queue ++ msgs, sentHist := s.sentHist ++ msgs,
        delivered := s.delivered } := by
  induction msgs with
  | nil => intro s; simp
  | cons m rest ih =>
    intro s
    simp only [List.map_cons, List.foldl_cons, bridgeStep, ih]
    simp

theorem bridge_foldl_relays (q : List Message) :
    ∀ sent d : List Message,
      (List.replicate q.length BridgeOp.relay).foldl bridgeStep
          { queue := q, sentHist := sent, delivered := d } =
        { queue := [], sentHist := sent, delivered := d ++ q } := by
  induction q with
  | nil => intro sent d; simp
  | cons m rest ih =>
    intro sent d
    simp only [List.length_cons, List.replicate_succ, List.foldl_cons, bridgeStep, ih]
    simp

/-- Claim C1: while the client stays connected, the SSE stream delivers the
messages written by the Session Handler to the outbound channel exactly, in
FIFO order, with no duplication and no loss: under every interleaving of
sends and relays the delivered payloads followed by the still-queued ones
equal the send history, and once every send has been relayed the delivered
stream is exactly the sent sequence. -/
theorem sse_stream_fifo_exact_delivery :
    (∀ ops : List BridgeOp,
      (runBridge ops).delivered ++ (runBridge ops).queue = (runBridge ops).sentHist) ∧
    (∀ msgs : List Message,
      runBridge (msgs.map BridgeOp.send ++ List.replicate msgs.length BridgeOp.relay) =
        { queue := [], sentHist := msgs, delivered := msgs }) := by
  constructor
  · intro ops
    exact bridgeAccounted_foldl ops { queue := [], sentHist := [], delivered := [] } rfl
  · intro msgs
    unfold runBridge
    rw [List.foldl_append, bridge_foldl_sends]
    simpa using bridge_foldl_relays msgs msgs []

/-- Claim C6: in every state reachable by any interleaving of register,
lookup and remove operations from the initial registry, session identifiers
are unique (at most one entry per identifier) and the channels of distinct
entries are disjoint (exclusively owned, never shared across sessions). -/
theorem registry_unique_ids_exclusive_channels (ops : List RegOp) :
    ((runReg ops).entries.map Prod.fst).Nodup ∧ ChansExclusive (runReg ops) :=
  ⟨(regInv_runReg ops).2, chansExclusive_of_regInv _ (regInv_runReg ops)⟩

theorem lookup_nextId_none (r : Registry) (h : RegInv r) : r.lookup r.nextId = none := by
  have hfind : r.entries.find? (fun p => p.1 == r.nextId) = none := by
    rw [List.find?_eq_none]
    intro x hx
    have hlt := (h.1 x hx).2.2.2
    simp only [beq_iff_eq]
    omega
  simp [Registry.lookup, hfind]

/-- Claim C3: on a GET to the stream endpoint, the first event sent to the
client is an endpoint event whose payload is the intake URL carrying the
freshly generated session identifier (fresh: not yet present in the
registry), and every later event of the stream is a data event, so the
endpoint event precedes every data event. -/
theorem sse_endpoint_event_first (r : Registry) (cap : Nat) (outMsgs : List Message)
    (h : RegInv r) :
    (handle_sse r cap outMsgs).2 =
      SSEvent.endpoint (postUrl r.nextId) :: outMsgs.map SSEvent.data ∧
    r.lookup r.nextId = none ∧
    ∀ e ∈ (handle_sse r cap outMsgs).2.tail, ∃ m, e = SSEvent.data m := by
  refine ⟨rfl, lookup_nextId_none r h, ?_⟩
  intro e he
  simp only [handle_sse, List.tail_cons, List.mem_map] at he
  obtain ⟨m, -, rfl⟩ := he
  exact ⟨m, rfl⟩

theorem sse_endpoint_event_first_witness :
    (handle_sse Registry.init 5 ["ping"]).2 =
      SSEvent.endpoint (postUrl Registry.init.nextId) :: List.map SSEvent.data ["ping"] ∧
    Registry.init.lookup Registry.init.nextId = none ∧
    ∀ e ∈ (handle_sse Registry.init 5 ["ping"]).2.tail, ∃ m, e = SSEvent.data m :=
  sse_endpoint_event_first Registry.init 5 ["ping"] regInv_init

/-- Claim C2: a POST whose session identifier does not name a registered,
live session (absent from the registry, or registered but in the closing or
closed state) gets a 404 response, the registry (and with it every channel)
is left unchanged, and nothing is enqueued. -/
theorem intake_unknown_session_not_found (r : Registry) (sid : Nat) (body : Option Message)
    (h : ∀ s, r.lookup sid = some s → s.state ≠ SessionState.active) :
    handle_post_message r sid body = (r, 404) := by
  cases hl : r.lookup sid with
  | none => simp [handle_post_message, hl]
  | some s =>
    have hs := h s hl
    cases hst : s.state with
    | active => exact absurd hst hs
    | closing => simp [handle_post_message, hl, hst]
    | closed => simp [handle_post_message, hl, hst]

theorem intake_unknown_session_not_found_witness :
    handle_post_message Registry.init 7 (some "x") = (Registry.init, 404) :=
  intake_unknown_session_not_found Registry.init 7 (some "x") (by
    intro s hs
    simp [Registry.lookup, Registry.init] at hs)

/-- Claim C4 fails as stated: a POST with a well-formed body to a registered,
live (`active`) session is rejected with 503 instead of being enqueued with
202 when the inbound channel of that session is already at capacity (here a
session registered with capacity 0). -/
theorem intake_live_full_rejected :
    Registry.lookup (Registry.init.register 0).1 0 = some (newSession 0 0) ∧
    (newSession 0 0).state = SessionState.active ∧
    handle_post_message (Registry.init.register 0).1 0 (some "ping") =
      ((Registry.init.register 0).1, 503) :=
  ⟨rfl, rfl, rfl⟩

theorem find_map_update (sid : Nat) (s2 : Session) :
    ∀ l : List (Nat × Session), (l.find? (fun p => p.1 == sid)).isSome →
      (l.map (fun p => if p.1 == sid then (p.1, s2) else p)).find?
          (fun p => p.1 == sid) = some (sid, s2) := by
  intro l
  induction l with
  | nil => intro h; simp at h
  | cons p rest ih =>
    intro h
    by_cases hp : p.1 = sid
    · subst hp
      simp
    · have hb : (p.1 == sid) = false := by simp [hp]
      simp only [List.find?_cons, hb, cond_false] at h
      simp only [List.map_cons, hb, Bool.false_eq_true, if_false, List.find?_cons, cond_false]
      exact ih h

theorem lookup_updateSession (r : Registry) (sid : Nat) (s2 : Session)
    (h : (r.lookup sid).isSome) :
    (r.updateSession sid s2).lookup sid = some s2 := by
  have h2 : (r.entries.find? (fun p => p.1 == sid)).isSome := by
    cases hf : r.entries.find? (fun p => p.1 == sid) with
    | none => rw [Registry.lookup, hf] at h; simp at h
    | some p => rfl
  unfold Registry.lookup Registry.updateSession
  rw [find_map_update sid s2 r.entries h2]
  rfl

/-- Claim C4 (amended): a POST with a well-formed body to a registered,
`active` session whose inbound channel is below capacity enqueues the message
at the tail of the inbound channel of that session and responds 202 without
waiting for the Session Handler; at capacity the POST is instead rejected
with the 503 backpressure status. -/
theorem intake_live_enqueues_202 (r : Registry) (sid : Nat) (s : Session) (m : Message)
    (hl : r.lookup sid = some s) (hst : s.state = SessionState.active)
    (hcap : s.inbound.length < s.inboundCap) :
    handle_post_message r sid (some m) =
      (r.updateSession sid { s with inbound := s.inbound ++ [m] }, 202) ∧
    (handle_post_message r sid (some m)).1.lookup sid =
      some { s with inbound := s.inbound ++ [m] } := by
  have heq : handle_post_message r sid (some m) =
      (r.updateSession sid { s with inbound := s.inbound ++ [m] }, 202) := by
    simp only [handle_post_message, hl, hst]
    rw [if_pos hcap]
  refine ⟨heq, ?_⟩
  rw [heq]
  exact lookup_updateSession r sid _ (by rw [hl]; rfl)

theorem intake_live_enqueues_202_witness :
    handle_post_message (Registry.init.register 1).1 0 (some "ping") =
      ((Registry.init.register 1).1.updateSession 0
        { newSession 0 1 with inbound := (newSession 0 1).inbound ++ ["ping"] }, 202) ∧
    (handle_post_message (Registry.init.register 1).1 0 (some "ping")).1.lookup 0 =
      some { newSession 0 1 with inbound := (newSession 0 1).inbound ++ ["ping"] } :=
  intake_live_enqueues_202 (Registry.init.register 1).1 0 (newSession 0 1) "ping"
    rfl rfl (by decide)

theorem postSeq_single (msgs : List Message) :
    ∀ s : Session, s.state = SessionState.active →
      (postSeq { entries := [(0, s)], nextId := 1 } 0 msgs).2 =
        List.replicate (min msgs.length (s.inboundCap - s.inbound.length)) 202 ++
          List.replicate (msgs.length - (s.inboundCap - s.inbound.length)) 503 := by
  induction msgs with
  | nil => intro s hs; simp [postSeq]
  | cons m rest ih =>
    intro s hs
    by_cases hcap : s.inbound.length < s.inboundCap
    · have hl : Registry.lookup { entries := [(0, s)], nextId := 1 } 0 = some s := rfl
      have hstep : handle_post_message { entries := [(0, s)], nextId := 1 } 0 (some m) =
          ({ entries := [(0, { s with inbound := s.inbound ++ [m] })], nextId := 1 }, 202) := by
        simp only [handle_post_message, hl, hs]
        rw [if_pos hcap]
        rfl
      have hq : (postSeq { entries := [(0, s)], nextId := 1 } 0 (m :: rest)).2 =
          202 :: (postSeq { entries :=
            [(0, { s with inbound := s.inbound ++ [m] })], nextId := 1 } 0 rest).2 := by
        simp only [postSeq, hstep]
      rw [hq, ih { s with inbound := s.inbound ++ [m] } hs]
      have e2 : ({ s with inbound := s.inbound ++ [m] } : Session).inbound.length =
          s.inbound.length + 1 := by simp
      rw [e2]
      simp only [List.length_cons]
      have h1 : min (rest.length + 1) (s.inboundCap - s.inbound.length) =
          min rest.length (s.inboundCap - (s.inbound.length + 1)) + 1 := by omega
      have h2 : (rest.length + 1) - (s.inboundCap - s.inbound.length) =
          rest.length - (s.inboundCap - (s.inbound.length + 1)) := by omega
      rw [h1, h2, List.replicate_succ, List.cons_append]
    · have hl : Registry.lookup { entries := [(0, s)], nextId := 1 } 0 = some s := rfl
      have hstep : handle_post_message { entries := [(0, s)], nextId := 1 } 0 (some m) =
          ({ entries := [(0, s)], nextId := 1 }, 503) := by
        simp only [handle_post_message, hl, hs]
        rw [if_neg hcap]
      have hq : (postSeq { entries := [(0, s)], nextId := 1 } 0 (m :: rest)).2 =
          503 :: (postSeq { entries := [(0, s)], nextId := 1 } 0 rest).2 := by
        simp only [postSeq, hstep]
      rw [hq, ih s hs]
      have hC : s.inboundCap - s.inbound.length = 0 := by omega
      rw [hC]
      simp [List.replicate_succ]

/-- Claim C5: with the inbound channel registered at capacity C and the
Session Handler draining nothing, a burst of C+1 POSTs to the live session
(in any arrival order, modelled as the arbitrary message list) gets exactly C
acceptance statuses followed by one 503 backpressure rejection for the last
arrival; none of them blocks. -/
theorem intake_backpressure_bound (C : Nat) (msgs : List Message)
    (hlen : msgs.length = C + 1) :
    (postSeq (Registry.init.register C).1 0 msgs).2 =
      List.replicate C 202 ++ [503] := by
  have hreg : (Registry.init.register C).1 =
      { entries := [(0, newSession 0 C)], nextId := 1 } := rfl
  rw [hreg, postSeq_single msgs (newSession 0 C) rfl]
  have e1 : (newSession 0 C).inboundCap = C := rfl
  have e2 : (newSession 0 C).inbound.length = 0 := rfl
  rw [e1, e2, hlen]
  have h1 : min (C + 1) (C - 0) = C := by omega
  have h2 : (C + 1) - (C - 0) = 1 := by omega
  rw [h1, h2]
  rfl

theorem intake_backpressure_bound_witness :
    (postSeq (Registry.init.register 2).1 0 ["a", "b", "c"]).2 =
      List.replicate 2 202 ++ [503] :=
  intake_backpressure_bound 2 ["a", "b", "c"] rfl

/-- Claim C7: when the SSE client disconnects, the outstanding blocking
receive on the Session Handler side resolves to the cancellation signal (the
teardown step is atomic in this model, which realises the bounded-time
promptness of the spec), and the registry entry is removed, so the session
identifier is afterwards absent from the registry. -/
theorem disconnect_cancels_and_removes (r : Registry) (sid : Nat) :
    (clientDisconnect r sid).handlerReceive = RecvResult.cancelled ∧
    (clientDisconnect r sid).registry.lookup sid = none := by
  refine ⟨rfl, ?_⟩
  have hfind : (r.entries.filter (fun p => p.1 != sid)).find? (fun p => p.1 == sid) = none := by
    rw [List.find?_eq_none]
    intro x hx
    have hmem := List.of_mem_filter hx
    simp only [bne_iff_ne, ne_eq] at hmem
    simp only [beq_iff_eq]
    exact hmem
  simp [clientDisconnect, Registry.remove, Registry.lookup, hfind]

/-- Claim C8: `handle_root` answers with status 200 both when the static
documentation file is read successfully and when opening it raises
FileNotFoundError (the fallback page), and answers with status 500 exactly
when some other exception is raised. -/
theorem handle_root_status (fr : FileReadResult) :
    ((handle_root fr).status_code = 200 ↔ ∀ e, fr ≠ FileReadResult.otherError e) ∧
    ((handle_root fr).status_code = 500 ↔ ∃ e, fr = FileReadResult.otherError e) := by
  cases fr <;> simp [handle_root]

/-- Claim C9: for every environment, `handle_health` answers with status 200
and a body whose `status` field is `healthy`, and the `instance_configured`
field of its configuration is `configured` exactly when the environment
variable SERVICENOW_INSTANCE_URL is set to a value different from the literal
string `not-configured`. -/
theorem handle_health_healthy (env : String → Option String) :
    (handle_health env).2 = 200 ∧
    (handle_health env).1.status = "healthy" ∧
    ((handle_health env).1.configuration.instance_configured = "configured" ↔
      ∃ v, env "SERVICENOW_INSTANCE_URL" = some v ∧ v ≠ "not-configured") := by
  refine ⟨rfl, rfl, ?_⟩
  cases henv : env "SERVICENOW_INSTANCE_URL" with
  | none => simp [handle_health, getenv, henv]
  | some v =>
    by_cases hv : v = "not-configured"
    · subst hv
      simp [handle_health, getenv, henv]
    · simp [handle_health, getenv, henv, hv]

/-- Claim C10: for every instance URL, username and password, the factory
`create_servicenow_mcp` returns a `ServiceNowSSEMCP` whose server
configuration uses BASIC authentication with exactly the given username and
password and the given instance URL; the authentication type is BASIC for
every input, so no other authentication type can be produced. -/
theorem create_servicenow_mcp_basic (instance_url username password : String) :
    (create_servicenow_mcp instance_url username password).config.auth.type =
      AuthType.BASIC ∧
    (create_servicenow_mcp instance_url username password).config.auth.basic =
      some { username := username, password := password } ∧
    (create_servicenow_mcp instance_url username password).config.instance_url =
      instance_url :=
  ⟨rfl, rfl, rfl⟩

end ServiceNowSSE
